import Mathlib

/-!
Shallow embedding of the moncar-api batch-import core
(src/routes/ventas.ts, src/routes/cancelaciones.ts, src/schemas/ventas.ts,
src/schemas/cancelaciones.ts, src/db.ts, migrations/001_schema_base.sql).

The database is modelled as an explicit state record; each SQL statement of
the import handlers becomes a pure state transformer.  Fallible statements
(constraint violations) return `Except String DB`; `withTransaction`
mirrors db.ts: commit on success, roll the state back on error.
Monetary `number` values are modelled as `Rat`, SQL `NULL` as `Option`,
timestamps (`now()`) as an explicit `Nat` parameter threaded into each call.
-/

namespace Moncar

/-- The forced branch id, `process.env.FORCED_SUCURSAL_ID ?? "moncar"`
(ventas.ts line 15 / cancelaciones.ts line 15); the environment variable is
an explicit `Option String` argument. -/
def FORCED_SUCURSAL_ID (envForced : Option String) : String :=
  envForced.getD "moncar"

/-- A payment as produced by `PagoSchema` (schemas/ventas.ts):
`idx` (int, min 1), `metodo` (non-empty string), `monto` (number). -/
structure Pago where
  idx : Int
  metodo : String
  monto : Rat
  deriving Repr, DecidableEq

/-- A sale line as produced by `LineaVentaSchema` (schemas/ventas.ts).
The schema is `.passthrough()`, so besides the declared fields the route's
alias chains can see extra caller keys; the extra keys actually read by
ventas.ts (`descuento`, `importe`, `precio_unitario`, `impuesto_linea`,
`almacen_id`, `id_salida_origen`, `estado_linea`, `observ_origen`,
`usuario_origen`, `usu_hora`) are modelled as optional fields. -/
structure Linea where
  articulo : String
  cantidad : Rat
  precio : Rat
  impuesto : Option Rat := none
  observ : Option String := none
  id_salida : Option Int := none
  usuario : Option String := none
  usuhora : Option String := none
  almacen : Option String := none
  estado : Option String := none
  usu_fecha : Option String := none
  -- passthrough keys read by the route's alias chains
  descuento : Option Rat := none
  importe : Option Rat := none
  precio_unitario : Option Rat := none
  impuesto_linea : Option Rat := none
  almacen_id : Option String := none
  id_salida_origen : Option Int := none
  estado_linea : Option String := none
  observ_origen : Option String := none
  usuario_origen : Option String := none
  usu_hora : Option String := none
  deriving Repr, DecidableEq

/-- A sale as produced by `VentaSchema` (schemas/ventas.ts).  `VentaSchema`
is a plain `z.object` (unknown keys stripped), so only the declared fields
survive validation; the legacy aliases ventas.ts also probes
(`caja_id`, `serie_documento`, `folio_numero`, `NO_REFEREN`, ...) are
always absent after parsing and mapped accordingly below. -/
structure Venta where
  id_venta : Int
  fecha_emision : String
  subtotal : Rat
  impuestos : Rat
  total : Rat
  sucursal : Option String := none
  caja : Option String := none
  serie : Option String := none
  folio : Option String := none
  cliente_origen : Option String := none
  datos_origen : Option String := none
  estado_origen : Option String := none
  usu_fecha : Option String := none
  usu_hora : Option String := none
  no_referencia : Option String := none
  pagos : List Pago := []
  lineas : List Linea := []
  origen : Option String := none
  deriving Repr, DecidableEq

/-- A cancellation as produced by `CancelacionSchema`
(schemas/cancelaciones.ts): nonnegative natural id, optional sale
reference, optional dates/strings.  `cliente_origen`, `cliente_nombre`
and `importe` are validated but never read by the route. -/
structure Cancelacion where
  id_cancelacion_origen : Int
  venta_id : Option Int := none
  fecha_emision : Option String := none
  fecha_cancelacion : Option String := none
  cliente_origen : Option String := none
  cliente_nombre : Option String := none
  importe : Option Rat := none
  motivo_cancelacion : Option String := none
  folio_sustitucion : Option String := none
  uuid_cfdi : Option String := none
  deriving Repr, DecidableEq

/-- A stored `ventas` header row (columns written by ventas.ts lines
164-198 plus the cancellation columns written by cancelaciones.ts lines
104-125). -/
structure VentaRow where
  venta_id : Int
  fecha_emision : String
  sucursal_id : String
  caja_id : Option String
  serie_documento : Option String
  folio_numero : Option String
  no_referencia : Option String
  cliente_origen : Option String
  datos_origen : Option String
  estado_origen : Option String
  usu_fecha : Option String
  usu_hora : Option String
  subtotal : Rat
  impuesto : Rat
  total : Rat
  cancelada : Bool
  fecha_cancelacion : Option String
  motivo_cancelacion : Option String
  folio_sustitucion : Option String
  uuid_cfdi : Option String
  actualizado_en : Nat
  deriving Repr, DecidableEq

/-- A stored `lineas_venta` row (columns of the INSERT at ventas.ts
lines 252-291). -/
structure LineaRow where
  venta_id : Int
  renglon : Nat
  articulo : String
  cantidad : Rat
  precio_unitario : Rat
  descuento : Rat
  impuesto_linea : Rat
  importe_linea : Rat
  almacen_id : Option String
  id_salida_origen : Option Int
  estado_linea : Option String
  observ_origen : Option String
  usuario_origen : Option String
  usu_hora : Option String
  usu_fecha : Option String
  deriving Repr, DecidableEq

/-- A stored `pagos_venta` row (INSERT at ventas.ts lines 298-310). -/
structure PagoRow where
  venta_id : Int
  idx : Int
  metodo : String
  monto : Rat
  deriving Repr, DecidableEq

/-- A stored `cancelaciones` row (INSERT at cancelaciones.ts lines 70-99). -/
structure CancelacionRow where
  id_cancelacion_origen : Int
  venta_id : Option Int
  fecha_emision : Option String
  fecha_cancelacion : Option String
  motivo_cancelacion : Option String
  folio_sustitucion : Option String
  uuid_cfdi : Option String
  deriving Repr, DecidableEq

/-- A stored `import_log` row (ventas.ts lines 325-340 / cancelaciones.ts
lines 143-149); `details` holds the per-item (natural id, reason) pairs. -/
structure ImportLogRow where
  batch_id : String
  source_id : String
  items : Nat
  ok : Nat
  dup : Nat
  error : Nat
  details : List (Int × String)
  deriving Repr, DecidableEq

/-- The relational store.  `ventas`, `cancelaciones` and `estadoSync` are
keyed maps (primary keys `venta_id`, `id_cancelacion_origen`, `id_fuente`);
`lineas` and `pagos` map each `venta_id` to its child rows; `productos`
is the set of known SKUs backing the `lineas_venta.articulo` foreign key
(migrations/001_schema_base.sql); `importLog` is append-only. -/
structure DB where
  productos : List String
  ventas : Int → Option VentaRow
  lineas : Int → List LineaRow
  pagos : Int → List PagoRow
  cancelaciones : Int → Option CancelacionRow
  importLog : List ImportLogRow
  estadoSync : String → Option Int

/-- The empty store. -/
def DB.empty : DB where
  productos := []
  ventas := fun _ => none
  lineas := fun _ => []
  pagos := fun _ => []
  cancelaciones := fun _ => none
  importLog := []
  estadoSync := fun _ => none

/-- Transaction wrapper `withTransaction` (db.ts lines 50-66): run the body; on success keep
the new state (COMMIT), on error return the original state (ROLLBACK)
together with the thrown message. -/
def withTransaction (db : DB) (fn : DB → Except String DB) :
    DB × Option String :=
  match fn db with
  | Except.ok db' => (db', none)
  | Except.error e => (db, some e)

/-- The payment-method enum `tipo_metodo_pago`
(migrations/001_schema_base.sql lines 13-20): inserting any other string
into `pagos_venta.metodo` raises a constraint violation. -/
def metodoAllowed (m : String) : Bool :=
  m = "efectivo" || m = "debito" || m = "credito" ||
  m = "transferencia" || m = "cheque" || m = "otro"

/-! ## Sales import (ventas.ts, POST /ventas/import-batch) -/

/-- The header UPSERT of ventas.ts lines 162-220.  The handler's field
mapping (lines 112-145) collapses on validated input: the legacy aliases
`caja_id`, `serie_documento`/`serieDocumento`, `folio_numero`/
`folioNumero`/`NO_REFEREN`, `estado`, `cliente`, `datos`, `impuesto` are
stripped by `VentaSchema`, leaving `folioVal = folio ?? no_referencia`,
`noRefVal = no_referencia ?? folio` and the identity for the rest.
`total` is recomputed as `subtotal + impuestos` (line 115).  On conflict
every inserted scalar column is overwritten and `actualizado_en := now`;
the cancellation columns keep their old values, and on a fresh insert
they take the schema defaults (`cancelada = false`, metadata NULL). -/
def headerScalars (envForced : Option String) (now : Nat) (v : Venta) :
    VentaRow :=
  let subtotal := v.subtotal
  let impuesto := v.impuestos
  let total := subtotal + impuesto
  let cajaVal := v.caja
  let serieVal := v.serie
  let folioVal := v.folio <|> v.no_referencia
  let noRefVal := v.no_referencia <|> v.folio
  { venta_id := v.id_venta
    fecha_emision := v.fecha_emision
    sucursal_id := FORCED_SUCURSAL_ID envForced
    caja_id := cajaVal
    serie_documento := serieVal
    folio_numero := folioVal
    no_referencia := noRefVal
    cliente_origen := v.cliente_origen
    datos_origen := v.datos_origen
    estado_origen := v.estado_origen
    usu_fecha := v.usu_fecha
    usu_hora := v.usu_hora
    subtotal := subtotal
    impuesto := impuesto
    total := total
    cancelada := false
    fecha_cancelacion := none
    motivo_cancelacion := none
    folio_sustitucion := none
    uuid_cfdi := none
    actualizado_en := now }

/-- The row stored by the header UPSERT: new columns from
`headerScalars`, cancellation columns carried over from the stored row
when the conflict branch fires. -/
def headerRow (envForced : Option String) (now : Nat) (db : DB)
    (v : Venta) : VentaRow :=
  let scalars := headerScalars envForced now v
  match db.ventas v.id_venta with
  | none => scalars
  | some old =>
      { scalars with
        cancelada := old.cancelada
        fecha_cancelacion := old.fecha_cancelacion
        motivo_cancelacion := old.motivo_cancelacion
        folio_sustitucion := old.folio_sustitucion
        uuid_cfdi := old.uuid_cfdi }

def upsertVentaHeader (envForced : Option String) (now : Nat)
    (db : DB) (v : Venta) : DB :=
  { db with
    ventas := fun id =>
      if id = v.id_venta then some (headerRow envForced now db v)
      else db.ventas id }

/-- Statement `DELETE FROM lineas_venta WHERE venta_id = $1` (ventas.ts line 223). -/
def deleteLineas (db : DB) (vid : Int) : DB :=
  { db with lineas := fun id => if id = vid then [] else db.lineas id }

/-- Statement `DELETE FROM pagos_venta WHERE venta_id = $1` (ventas.ts line 295). -/
def deletePagos (db : DB) (vid : Int) : DB :=
  { db with pagos := fun id => if id = vid then [] else db.pagos id }

/-- The per-line mapping of ventas.ts lines 226-250, with `renglon =`
array position `+ 1`.  On validated input `cantidad` and `precio` are
present numbers, so `precioUnitario = precio` and the finiteness guard of
`importeLinea` always holds; the remaining alias chains read the
passthrough keys. -/
def mkLineaRow (vid : Int) (renglon : Nat) (l : Linea) : LineaRow :=
  let cantidad := l.cantidad
  let precioUnitario := l.precio
  let descuento := l.descuento.getD 0
  let impuestoLinea := (l.impuesto <|> l.impuesto_linea).getD 0
  let importeLinea :=
    match l.importe with
    | some x => x
    | none => cantidad * precioUnitario - descuento
  { venta_id := vid
    renglon := renglon
    articulo := l.articulo
    cantidad := cantidad
    precio_unitario := precioUnitario
    descuento := descuento
    impuesto_linea := impuestoLinea
    importe_linea := importeLinea
    almacen_id := l.almacen_id <|> l.almacen
    id_salida_origen := l.id_salida <|> l.id_salida_origen
    estado_linea := l.estado <|> l.estado_linea
    observ_origen := l.observ <|> l.observ_origen
    usuario_origen := l.usuario <|> l.usuario_origen
    usu_hora := l.usuhora <|> l.usu_hora
    usu_fecha := l.usu_fecha }

/-- Append one stored line row for `vid`. -/
def appendLinea (db : DB) (vid : Int) (r : LineaRow) : DB :=
  { db with
    lineas := fun id => if id = vid then db.lineas vid ++ [r] else db.lineas id }

/-- The line-insert loop of ventas.ts lines 225-292: insert each mapped
line in positional order; an `articulo` not present in `productos`
violates the foreign key and aborts the statement. -/
def insertLineas (vid : Int) : DB → Nat → List Linea → Except String DB
  | db, _, [] => Except.ok db
  | db, idx, l :: rest =>
      if db.productos.contains l.articulo then
        insertLineas vid (appendLinea db vid (mkLineaRow vid (idx + 1) l))
          (idx + 1) rest
      else
        Except.error ("violacion de llave foranea: articulo " ++ l.articulo)

/-- Append one stored payment row for `vid`. -/
def appendPago (db : DB) (vid : Int) (r : PagoRow) : DB :=
  { db with
    pagos := fun id => if id = vid then db.pagos vid ++ [r] else db.pagos id }

/-- The payment-insert loop of ventas.ts lines 297-311: each payment is
stored with its caller-supplied `idx`, `metodo`, `monto`; a `metodo`
outside `tipo_metodo_pago` violates the enum constraint. -/
def insertPagos (vid : Int) : DB → List Pago → Except String DB
  | db, [] => Except.ok db
  | db, p :: rest =>
      if metodoAllowed p.metodo then
        insertPagos vid
          (appendPago db vid
            { venta_id := vid, idx := p.idx, metodo := p.metodo,
              monto := p.monto }) rest
      else
        Except.error ("valor invalido para tipo_metodo_pago: " ++ p.metodo)

/-- The body of one sale's transaction (ventas.ts lines 160-312):
header upsert, full replace of lines, full replace of payments. -/
def ventaTxnBody (envForced : Option String) (now : Nat) (db : DB)
    (v : Venta) : Except String DB := do
  let db := upsertVentaHeader envForced now db v
  let db := deleteLineas db v.id_venta
  let db ← insertLineas v.id_venta db 0 v.lineas
  let db := deletePagos db v.id_venta
  insertPagos v.id_venta db v.pagos

/-- One per-item error entry `{ id_venta, reason }` (ventas.ts line 105). -/
structure ErrVenta where
  id_venta : Int
  reason : String
  deriving Repr, DecidableEq

/-- The per-item loop of ventas.ts lines 109-321: run each sale's
transaction; on success increment `ok`, on a thrown error roll back,
increment `error` and record `{ id_venta, reason }`; always continue with
the next sale. -/
def runVentas (envForced : Option String) (now : Nat) :
    DB → List Venta → DB × Nat × Nat × List ErrVenta
  | db, [] => (db, 0, 0, [])
  | db, v :: rest =>
      match withTransaction db (fun d => ventaTxnBody envForced now d v) with
      | (db', none) =>
          let (dbf, ok, err, errs) := runVentas envForced now db' rest
          (dbf, ok + 1, err, errs)
      | (db', some reason) =>
          let (dbf, ok, err, errs) := runVentas envForced now db' rest
          (dbf, ok, err + 1, ⟨v.id_venta, reason⟩ :: errs)

/-- The response body of POST /ventas/import-batch (ventas.ts lines 91
and 367). -/
structure VentasResp where
  ok : Nat
  dup : Nat
  error : Nat
  batch_id : Option String
  errors : List ErrVenta
  deriving Repr, DecidableEq

/-- Cursor upsert `INSERT INTO estado_sincronizacion ... ON CONFLICT
(id_fuente) DO UPDATE SET ultimo_id_venta = GREATEST(stored, excluded)`
(ventas.ts lines 348-361). -/
def advanceCursor (db : DB) (sourceId : String) (candidate : Int) : DB :=
  let newVal :=
    match db.estadoSync sourceId with
    | none => candidate
    | some old => max old candidate
  { db with
    estadoSync := fun s =>
      if s = sourceId then some newVal else db.estadoSync s }

/-- POST /ventas/import-batch (ventas.ts lines 61-368) on an
already-validated batch: empty input short-circuits to the zeroed
response (line 91); otherwise `maxIdVenta` is the running maximum of the
ids over all items (line 110, starting from 0), each sale runs in its own
transaction, one `import_log` row is appended (best-effort), and the sync
cursor is upserted only when `maxIdVenta > 0` (line 346).  `batchId` is
the generated UUID and `sourceId` the required `SOURCE_ID` env value. -/
def importVentasBatch (envForced : Option String) (now : Nat)
    (batchId : String) (sourceId : String) (db : DB)
    (ventas : List Venta) : DB × VentasResp :=
  if ventas.length = 0 then
    (db, { ok := 0, dup := 0, error := 0, batch_id := none, errors := [] })
  else
    let maxIdVenta := ventas.foldl (fun m v => max m v.id_venta) 0
    let (db, okCount, errorCount, errorDetails) :=
      runVentas envForced now db ventas
    let db :=
      { db with
        importLog := db.importLog ++
          [{ batch_id := batchId, source_id := sourceId,
             items := ventas.length, ok := okCount, dup := 0,
             error := errorCount,
             details := errorDetails.map fun e => (e.id_venta, e.reason) }] }
    let db :=
      if maxIdVenta > 0 then advanceCursor db sourceId maxIdVenta else db
    (db,
      { ok := okCount, dup := 0, error := errorCount,
        batch_id := some batchId, errors := errorDetails })

/-! ## Cancellations import (cancelaciones.ts, POST /cancelaciones/import-batch) -/

/-- The cancellation UPSERT of cancelaciones.ts lines 70-100: insert
keyed by `id_cancelacion_origen`; on conflict every column is set to
`COALESCE(EXCLUDED.col, stored.col)` — an incoming non-null value wins,
an incoming NULL keeps the stored value. -/
def upsertCancelacion (db : DB) (c : Cancelacion) : DB :=
  let cid := c.id_cancelacion_origen
  let newRow : CancelacionRow :=
    match db.cancelaciones cid with
    | none =>
        { id_cancelacion_origen := cid
          venta_id := c.venta_id
          fecha_emision := c.fecha_emision
          fecha_cancelacion := c.fecha_cancelacion
          motivo_cancelacion := c.motivo_cancelacion
          folio_sustitucion := c.folio_sustitucion
          uuid_cfdi := c.uuid_cfdi }
    | some old =>
        { id_cancelacion_origen := cid
          venta_id := c.venta_id <|> old.venta_id
          fecha_emision := c.fecha_emision <|> old.fecha_emision
          fecha_cancelacion := c.fecha_cancelacion <|> old.fecha_cancelacion
          motivo_cancelacion := c.motivo_cancelacion <|> old.motivo_cancelacion
          folio_sustitucion := c.folio_sustitucion <|> old.folio_sustitucion
          uuid_cfdi := c.uuid_cfdi <|> old.uuid_cfdi }
  { db with
    cancelaciones := fun id =>
      if id = cid then some newRow else db.cancelaciones id }

/-- The `UPDATE ventas SET cancelada = true, ... WHERE venta_id = $1 AND
sucursal_id = $6` of cancelaciones.ts lines 104-125: when a header row
with the referenced id and the forced branch exists, flip its cancelled
flag, coalesce-merge the cancellation metadata and touch
`actualizado_en`; when no row matches, the UPDATE affects nothing. -/
def markVentaCancelada (envForced : Option String) (now : Nat)
    (db : DB) (vid : Int) (c : Cancelacion) : DB :=
  match db.ventas vid with
  | none => db
  | some r =>
      if r.sucursal_id = FORCED_SUCURSAL_ID envForced then
        let r' :=
          { r with
            cancelada := true
            fecha_cancelacion := c.fecha_cancelacion <|> r.fecha_cancelacion
            motivo_cancelacion := c.motivo_cancelacion <|> r.motivo_cancelacion
            folio_sustitucion := c.folio_sustitucion <|> r.folio_sustitucion
            uuid_cfdi := c.uuid_cfdi <|> r.uuid_cfdi
            actualizado_en := now }
        { db with
          ventas := fun id => if id = vid then some r' else db.ventas id }
      else db

/-- The body of one cancellation's transaction (cancelaciones.ts lines
68-127): upsert the cancellation row, then, only when `venta_id` is
non-null, run the sale UPDATE. -/
def cancelacionTxnBody (envForced : Option String) (now : Nat) (db : DB)
    (c : Cancelacion) : Except String DB := do
  let db := upsertCancelacion db c
  match c.venta_id with
  | some vid => Except.ok (markVentaCancelada envForced now db vid c)
  | none => Except.ok db

/-- One per-item error entry `{ id_cancelacion_origen, reason }`
(cancelaciones.ts line 60). -/
structure ErrCancelacion where
  id_cancelacion_origen : Int
  reason : String
  deriving Repr, DecidableEq

/-- The per-item loop of cancelaciones.ts lines 64-139. -/
def runCancelaciones (envForced : Option String) (now : Nat) :
    DB → List Cancelacion → DB × Nat × Nat × List ErrCancelacion
  | db, [] => (db, 0, 0, [])
  | db, c :: rest =>
      match withTransaction db
          (fun d => cancelacionTxnBody envForced now d c) with
      | (db', none) =>
          let (dbf, ok, err, errs) := runCancelaciones envForced now db' rest
          (dbf, ok + 1, err, errs)
      | (db', some reason) =>
          let (dbf, ok, err, errs) := runCancelaciones envForced now db' rest
          (dbf, ok, err + 1, ⟨c.id_cancelacion_origen, reason⟩ :: errs)

/-- The response body of POST /cancelaciones/import-batch
(cancelaciones.ts lines 40-46 and 157-164); the empty-input short-circuit
omits `max_id_cancelacion`, modelled as `none`. -/
structure CancelacionesResp where
  ok : Nat
  dup : Nat
  error : Nat
  batch_id : Option String
  errors : List ErrCancelacion
  max_id_cancelacion : Option Int
  deriving Repr, DecidableEq

/-- POST /cancelaciones/import-batch (cancelaciones.ts lines 23-166) on
an already-validated batch: empty input short-circuits to the zeroed
response; otherwise each item runs in its own transaction, one
`import_log` row is appended, and — per the comment at lines 154-156 —
`estado_sincronizacion` is NOT touched; the response carries
`max_id_cancelacion`, the running maximum of the ids (from 0). -/
def importCancelacionesBatch (envForced : Option String) (now : Nat)
    (batchId : String) (sourceId : String) (db : DB)
    (items : List Cancelacion) : DB × CancelacionesResp :=
  if items.length = 0 then
    (db,
      { ok := 0, dup := 0, error := 0, batch_id := none, errors := [],
        max_id_cancelacion := none })
  else
    let maxCancelId :=
      items.foldl (fun m c => max m c.id_cancelacion_origen) 0
    let (db, okCount, errorCount, errors) :=
      runCancelaciones envForced now db items
    let db :=
      { db with
        importLog := db.importLog ++
          [{ batch_id := batchId, source_id := sourceId,
             items := items.length, ok := okCount, dup := 0,
             error := errorCount,
             details :=
               errors.map fun e => (e.id_cancelacion_origen, e.reason) }] }
    (db,
      { ok := okCount, dup := 0, error := errorCount,
        batch_id := some batchId, errors := errors,
        max_id_cancelacion := some maxCancelId })

/-! ## Specification-level definitions -/

/-- A sale's transaction raises iff some line's `articulo` violates the
`productos` foreign key or some payment's `metodo` falls outside the
`tipo_metodo_pago` enum. -/
def ventaFails (db : DB) (v : Venta) : Bool :=
  v.lineas.any (fun l => !(db.productos.contains l.articulo)) ||
  v.pagos.any (fun p => !(metodoAllowed p.metodo))

/-- The line rows a successful import stores for `vid`, starting at
array position `idx` (renglon `idx + 1`). -/
def lineasRows (vid : Int) : Nat → List Linea → List LineaRow
  | _, [] => []
  | idx, l :: rest => mkLineaRow vid (idx + 1) l :: lineasRows vid (idx + 1) rest

/-- The payment rows a successful import stores for `vid`. -/
def pagosRows (vid : Int) (ps : List Pago) : List PagoRow :=
  ps.map fun p =>
    { venta_id := vid, idx := p.idx, metodo := p.metodo, monto := p.monto }

/-- Net effect of one successful sale transaction: header upserted,
lines and payments fully replaced. -/
def applyVenta (envForced : Option String) (now : Nat) (db : DB)
    (v : Venta) : DB :=
  let db1 := upsertVentaHeader envForced now db v
  { db1 with
    lineas := fun id =>
      if id = v.id_venta then lineasRows v.id_venta 0 v.lineas
      else db1.lineas id
    pagos := fun id =>
      if id = v.id_venta then pagosRows v.id_venta v.pagos
      else db1.pagos id }

/-- Net effect of one cancellation transaction. -/
def applyCancelacion (envForced : Option String) (now : Nat) (db : DB)
    (c : Cancelacion) : DB :=
  let db1 := upsertCancelacion db c
  match c.venta_id with
  | some vid => markVentaCancelada envForced now db1 vid c
  | none => db1

/-- A header row up to its `actualizado_en` timestamp. -/
def VentaRow.sinTimestamp (r : VentaRow) : VentaRow :=
  { r with actualizado_en := 0 }

/-! ## Sample inputs for concrete evaluations -/

/-- A store whose SKU catalog knows `SKU-1` and `SKU-2`. -/
def dbSKU : DB := { DB.empty with productos := ["SKU-1", "SKU-2"] }

/-- Sale 10: two lines over known SKUs, one cash payment. -/
def venta10 : Venta :=
  { id_venta := 10
    fecha_emision := "2025-05-01T10:00:00Z"
    subtotal := 100
    impuestos := 16
    total := 999
    lineas :=
      [{ articulo := "SKU-1", cantidad := 2, precio := 30 },
       { articulo := "SKU-2", cantidad := 1, precio := 40 }]
    pagos := [{ idx := 1, metodo := "efectivo", monto := 116 }] }

/-- Sale 11: references an unknown SKU, so its transaction fails. -/
def venta11 : Venta :=
  { id_venta := 11
    fecha_emision := "2025-05-01T11:00:00Z"
    subtotal := 50
    impuestos := 8
    total := 58
    lineas := [{ articulo := "SKU-MISSING", cantidad := 1, precio := 50 }]
    pagos := [] }

/-- Sale 12: a single line, no payments. -/
def venta12 : Venta :=
  { id_venta := 12
    fecha_emision := "2025-05-01T12:00:00Z"
    subtotal := 30
    impuestos := 0
    total := 30
    lineas := [{ articulo := "SKU-2", cantidad := 3, precio := 10 }]
    pagos := [] }

/-- Cancellation 1, first partial message: only a reason. -/
def cancel1a : Cancelacion :=
  { id_cancelacion_origen := 1, motivo_cancelacion := some "A" }

/-- Cancellation 1, second partial message: no reason, a
replacement folio. -/
def cancel1b : Cancelacion :=
  { id_cancelacion_origen := 1, motivo_cancelacion := none,
    folio_sustitucion := some "F1" }

/-- The cancellation row stored after importing `cancel1a` into the
empty store. -/
def cancelRow1A : CancelacionRow :=
  { id_cancelacion_origen := 1
    venta_id := none
    fecha_emision := none
    fecha_cancelacion := none
    motivo_cancelacion := some "A"
    folio_sustitucion := none
    uuid_cfdi := none }

/-- Cancellation 7: references sale 77, which does not exist locally. -/
def cancel7 : Cancelacion :=
  { id_cancelacion_origen := 7, venta_id := some 77 }

/-- A stored header row for sale 10 that was flagged cancelled by an
earlier cancellation import. -/
def row10c : VentaRow :=
  { venta_id := 10
    fecha_emision := "2025-04-01T09:00:00Z"
    sucursal_id := "moncar"
    caja_id := none
    serie_documento := none
    folio_numero := none
    no_referencia := none
    cliente_origen := none
    datos_origen := none
    estado_origen := none
    usu_fecha := none
    usu_hora := none
    subtotal := 90
    impuesto := 10
    total := 100
    cancelada := true
    fecha_cancelacion := some "2025-04-02T09:00:00Z"
    motivo_cancelacion := some "devolucion"
    folio_sustitucion := none
    uuid_cfdi := some "UUID-1"
    actualizado_en := 3
  }

/-- The SKU store holding the cancelled header row for sale 10. -/
def dbVenta10 : DB :=
  { dbSKU with ventas := fun id => if id = 10 then some row10c else none }

/-! ## Projection lemmas for the atomic store operations -/

@[simp] theorem upsertVentaHeader_ventas (e : Option String) (t : Nat)
    (db : DB) (v : Venta) :
    (upsertVentaHeader e t db v).ventas = fun id =>
      if id = v.id_venta then some (headerRow e t db v) else db.ventas id :=
  rfl

@[simp] theorem upsertVentaHeader_productos (e : Option String) (t : Nat)
    (db : DB) (v : Venta) :
    (upsertVentaHeader e t db v).productos = db.productos := rfl

@[simp] theorem upsertVentaHeader_lineas (e : Option String) (t : Nat)
    (db : DB) (v : Venta) :
    (upsertVentaHeader e t db v).lineas = db.lineas := rfl

@[simp] theorem upsertVentaHeader_pagos (e : Option String) (t : Nat)
    (db : DB) (v : Venta) :
    (upsertVentaHeader e t db v).pagos = db.pagos := rfl

@[simp] theorem upsertVentaHeader_cancelaciones (e : Option String) (t : Nat)
    (db : DB) (v : Venta) :
    (upsertVentaHeader e t db v).cancelaciones = db.cancelaciones := rfl

@[simp] theorem upsertVentaHeader_importLog (e : Option String) (t : Nat)
    (db : DB) (v : Venta) :
    (upsertVentaHeader e t db v).importLog = db.importLog := rfl

@[simp] theorem upsertVentaHeader_estadoSync (e : Option String) (t : Nat)
    (db : DB) (v : Venta) :
    (upsertVentaHeader e t db v).estadoSync = db.estadoSync := rfl

@[simp] theorem applyVenta_productos (e : Option String) (t : Nat)
    (db : DB) (v : Venta) :
    (applyVenta e t db v).productos = db.productos := rfl

@[simp] theorem applyVenta_ventas (e : Option String) (t : Nat)
    (db : DB) (v : Venta) :
    (applyVenta e t db v).ventas = fun id =>
      if id = v.id_venta then some (headerRow e t db v) else db.ventas id :=
  rfl

@[simp] theorem applyVenta_lineas (e : Option String) (t : Nat)
    (db : DB) (v : Venta) :
    (applyVenta e t db v).lineas = fun id =>
      if id = v.id_venta then lineasRows v.id_venta 0 v.lineas
      else db.lineas id :=
  rfl

@[simp] theorem applyVenta_pagos (e : Option String) (t : Nat)
    (db : DB) (v : Venta) :
    (applyVenta e t db v).pagos = fun id =>
      if id = v.id_venta then pagosRows v.id_venta v.pagos
      else db.pagos id :=
  rfl

@[simp] theorem applyVenta_cancelaciones (e : Option String) (t : Nat)
    (db : DB) (v : Venta) :
    (applyVenta e t db v).cancelaciones = db.cancelaciones := rfl

@[simp] theorem applyVenta_importLog (e : Option String) (t : Nat)
    (db : DB) (v : Venta) :
    (applyVenta e t db v).importLog = db.importLog := rfl

@[simp] theorem applyVenta_estadoSync (e : Option String) (t : Nat)
    (db : DB) (v : Venta) :
    (applyVenta e t db v).estadoSync = db.estadoSync := rfl

@[simp] theorem advanceCursor_ventas (db : DB) (s : String) (c : Int) :
    (advanceCursor db s c).ventas = db.ventas := rfl

@[simp] theorem advanceCursor_lineas (db : DB) (s : String) (c : Int) :
    (advanceCursor db s c).lineas = db.lineas := rfl

@[simp] theorem advanceCursor_pagos (db : DB) (s : String) (c : Int) :
    (advanceCursor db s c).pagos = db.pagos := rfl

@[simp] theorem advanceCursor_productos (db : DB) (s : String) (c : Int) :
    (advanceCursor db s c).productos = db.productos := rfl

@[simp] theorem advanceCursor_cancelaciones (db : DB) (s : String) (c : Int) :
    (advanceCursor db s c).cancelaciones = db.cancelaciones := rfl

@[simp] theorem advanceCursor_estadoSync (db : DB) (s : String) (c : Int) :
    (advanceCursor db s c).estadoSync = fun s2 =>
      if s2 = s then
        some
          (match db.estadoSync s with
           | none => c
           | some old => max old c)
      else db.estadoSync s2 :=
  rfl

@[simp] theorem upsertCancelacion_ventas (db : DB) (c : Cancelacion) :
    (upsertCancelacion db c).ventas = db.ventas := rfl

@[simp] theorem upsertCancelacion_productos (db : DB) (c : Cancelacion) :
    (upsertCancelacion db c).productos = db.productos := rfl

@[simp] theorem upsertCancelacion_lineas (db : DB) (c : Cancelacion) :
    (upsertCancelacion db c).lineas = db.lineas := rfl

@[simp] theorem upsertCancelacion_pagos (db : DB) (c : Cancelacion) :
    (upsertCancelacion db c).pagos = db.pagos := rfl

@[simp] theorem upsertCancelacion_importLog (db : DB) (c : Cancelacion) :
    (upsertCancelacion db c).importLog = db.importLog := rfl

@[simp] theorem upsertCancelacion_estadoSync (db : DB) (c : Cancelacion) :
    (upsertCancelacion db c).estadoSync = db.estadoSync := rfl

@[simp] theorem markVentaCancelada_productos (e : Option String) (t : Nat)
    (db : DB) (vid : Int) (c : Cancelacion) :
    (markVentaCancelada e t db vid c).productos = db.productos := by
  unfold markVentaCancelada
  rcases db.ventas vid with _ | r
  · rfl
  · dsimp only
    split <;> rfl

@[simp] theorem markVentaCancelada_lineas (e : Option String) (t : Nat)
    (db : DB) (vid : Int) (c : Cancelacion) :
    (markVentaCancelada e t db vid c).lineas = db.lineas := by
  unfold markVentaCancelada
  rcases db.ventas vid with _ | r
  · rfl
  · dsimp only
    split <;> rfl

@[simp] theorem markVentaCancelada_pagos (e : Option String) (t : Nat)
    (db : DB) (vid : Int) (c : Cancelacion) :
    (markVentaCancelada e t db vid c).pagos = db.pagos := by
  unfold markVentaCancelada
  rcases db.ventas vid with _ | r
  · rfl
  · dsimp only
    split <;> rfl

@[simp] theorem markVentaCancelada_cancelaciones (e : Option String) (t : Nat)
    (db : DB) (vid : Int) (c : Cancelacion) :
    (markVentaCancelada e t db vid c).cancelaciones = db.cancelaciones := by
  unfold markVentaCancelada
  rcases db.ventas vid with _ | r
  · rfl
  · dsimp only
    split <;> rfl

@[simp] theorem markVentaCancelada_importLog (e : Option String) (t : Nat)
    (db : DB) (vid : Int) (c : Cancelacion) :
    (markVentaCancelada e t db vid c).importLog = db.importLog := by
  unfold markVentaCancelada
  rcases db.ventas vid with _ | r
  · rfl
  · dsimp only
    split <;> rfl

@[simp] theorem markVentaCancelada_estadoSync (e : Option String) (t : Nat)
    (db : DB) (vid : Int) (c : Cancelacion) :
    (markVentaCancelada e t db vid c).estadoSync = db.estadoSync := by
  unfold markVentaCancelada
  rcases db.ventas vid with _ | r
  · rfl
  · dsimp only
    split <;> rfl

/-- When the referenced sale is absent, the cancellation's UPDATE on
`ventas` affects nothing. -/
theorem markVentaCancelada_absent (e : Option String) (t : Nat)
    (db : DB) (vid : Int) (c : Cancelacion)
    (h : db.ventas vid = none) :
    markVentaCancelada e t db vid c = db := by
  unfold markVentaCancelada
  rw [h]

/-! ## Characterization of the child-insert loops -/

/-- When every line references a known SKU, the line-insert loop
succeeds and appends exactly the mapped rows for `vid`. -/
theorem insertLineas_ok (vid : Int) :
    ∀ (ls : List Linea) (db : DB) (idx : Nat),
      (∀ l ∈ ls, db.productos.contains l.articulo = true) →
      insertLineas vid db idx ls =
        Except.ok
          { db with
            lineas := fun id =>
              if id = vid then db.lineas vid ++ lineasRows vid idx ls
              else db.lineas id } := by
  intro ls
  induction ls with
  | nil =>
      intro db idx _
      cases db with
      | mk prods vs lin ps cs il es =>
          simp only [insertLineas, lineasRows, List.append_nil,
            Except.ok.injEq, DB.mk.injEq, true_and, and_true]
          funext id
          split
          next h => rw [h]
          next => rfl
  | cons l rest ih =>
      intro db idx h
      have hl : db.productos.contains l.articulo = true := h l (by simp)
      have hrest :
          ∀ l' ∈ rest,
            (appendLinea db vid (mkLineaRow vid (idx + 1) l)).productos.contains
              l'.articulo = true := by
        intro l' hl'
        exact h l' (List.mem_cons_of_mem _ hl')
      rw [insertLineas, hl, if_pos rfl, ih _ _ hrest]
      cases db with
      | mk prods vs lin ps cs il es =>
          simp only [appendLinea, lineasRows, Except.ok.injEq, DB.mk.injEq,
            true_and, and_true]
          funext id
          by_cases hid : id = vid
          · subst hid
            simp [List.append_assoc]
          · simp [hid]

/-- When some line references an unknown SKU, the line-insert loop
raises. -/
theorem insertLineas_err (vid : Int) :
    ∀ (ls : List Linea) (db : DB) (idx : Nat),
      ls.any (fun l => !(db.productos.contains l.articulo)) = true →
      ∃ e, insertLineas vid db idx ls = Except.error e := by
  intro ls
  induction ls with
  | nil => intro db idx h; simp at h
  | cons l rest ih =>
      intro db idx h
      by_cases hl : db.productos.contains l.articulo = true
      · have hrest :
            rest.any
              (fun l' =>
                !((appendLinea db vid
                    (mkLineaRow vid (idx + 1) l)).productos.contains
                  l'.articulo)) = true := by
          simp only [List.any_cons, hl, Bool.not_true, Bool.false_or] at h
          exact h
        obtain ⟨e, he⟩ := ih _ (idx + 1) hrest
        exact ⟨e, by rw [insertLineas, hl, if_pos rfl, he]⟩
      · refine ⟨"violacion de llave foranea: articulo " ++ l.articulo, ?_⟩
        rw [insertLineas, if_neg hl]

/-- When every payment method is in the enum, the payment-insert loop
succeeds and appends exactly the mapped rows for `vid`. -/
theorem insertPagos_ok (vid : Int) :
    ∀ (ps : List Pago) (db : DB),
      (∀ p ∈ ps, metodoAllowed p.metodo = true) →
      insertPagos vid db ps =
        Except.ok
          { db with
            pagos := fun id =>
              if id = vid then db.pagos vid ++ pagosRows vid ps
              else db.pagos id } := by
  intro ps
  induction ps with
  | nil =>
      intro db _
      cases db with
      | mk prods vs lin pg cs il es =>
          simp only [insertPagos, pagosRows, List.map_nil, List.append_nil,
            Except.ok.injEq, DB.mk.injEq, true_and, and_true]
          funext id
          split
          next h => rw [h]
          next => rfl
  | cons p rest ih =>
      intro db h
      have hp : metodoAllowed p.metodo = true := h p (by simp)
      have hrest :
          ∀ p' ∈ rest, metodoAllowed p'.metodo = true := by
        intro p' hp'
        exact h p' (List.mem_cons_of_mem _ hp')
      rw [insertPagos, hp, if_pos rfl, ih _ hrest]
      cases db with
      | mk prods vs lin pg cs il es =>
          simp only [appendPago, pagosRows, List.map_cons, Except.ok.injEq,
            DB.mk.injEq, true_and, and_true]
          funext id
          by_cases hid : id = vid
          · subst hid
            simp [List.append_assoc]
          · simp [hid]

/-- When some payment method is outside the enum, the payment-insert
loop raises. -/
theorem insertPagos_err (vid : Int) :
    ∀ (ps : List Pago) (db : DB),
      ps.any (fun p => !(metodoAllowed p.metodo)) = true →
      ∃ e, insertPagos vid db ps = Except.error e := by
  intro ps
  induction ps with
  | nil => intro db h; simp at h
  | cons p rest ih =>
      intro db h
      by_cases hp : metodoAllowed p.metodo = true
      · have hrest : rest.any (fun p' => !(metodoAllowed p'.metodo)) = true := by
          simp only [List.any_cons, hp, Bool.not_true, Bool.false_or] at h
          exact h
        obtain ⟨e, he⟩ := ih _ hrest
        exact ⟨e, by rw [insertPagos, hp, if_pos rfl, he]⟩
      · refine ⟨"valor invalido para tipo_metodo_pago: " ++ p.metodo, ?_⟩
        rw [insertPagos, if_neg hp]

/-! ## The per-sale transaction: success and failure -/

/-- The failure predicate unfolded to the two constraint families. -/
theorem ventaFails_false_iff (db : DB) (v : Venta) :
    ventaFails db v = false ↔
      (∀ l ∈ v.lineas, db.productos.contains l.articulo = true) ∧
      (∀ p ∈ v.pagos, metodoAllowed p.metodo = true) := by
  simp [ventaFails]

/-- The failure predicate reads only the SKU catalog. -/
theorem ventaFails_congr {db1 db2 : DB}
    (h : db1.productos = db2.productos) :
    ventaFails db1 = ventaFails db2 := by
  funext v
  simp [ventaFails, h]

/-- A sale transaction whose constraints all hold commits to exactly
`applyVenta`. -/
theorem ventaTxnBody_ok (e : Option String) (t : Nat) (db : DB) (v : Venta)
    (h : ventaFails db v = false) :
    ventaTxnBody e t db v = Except.ok (applyVenta e t db v) := by
  obtain ⟨hL, hP⟩ := (ventaFails_false_iff db v).mp h
  unfold ventaTxnBody
  dsimp only
  rw [insertLineas_ok v.id_venta v.lineas
      (deleteLineas (upsertVentaHeader e t db v) v.id_venta) 0 hL]
  show insertPagos v.id_venta _ v.pagos = _
  rw [insertPagos_ok v.id_venta v.pagos _ hP]
  cases db with
  | mk prods vs lin pg cs il es =>
      simp only [applyVenta, upsertVentaHeader, deleteLineas, deletePagos,
        Except.ok.injEq, DB.mk.injEq, true_and, and_true]
      constructor
      · funext id
        by_cases hid : id = v.id_venta
        · subst hid
          simp
        · simp [hid]
      · funext id
        by_cases hid : id = v.id_venta
        · subst hid
          simp
        · simp [hid]

/-- A sale transaction violating some constraint raises. -/
theorem ventaTxnBody_err (e : Option String) (t : Nat) (db : DB) (v : Venta)
    (h : ventaFails db v = true) :
    ∃ r, ventaTxnBody e t db v = Except.error r := by
  by_cases hline :
      v.lineas.any (fun l => !(db.productos.contains l.articulo)) = true
  · obtain ⟨r, hr⟩ := insertLineas_err v.id_venta v.lineas
      (deleteLineas (upsertVentaHeader e t db v) v.id_venta) 0 hline
    refine ⟨r, ?_⟩
    unfold ventaTxnBody
    dsimp only
    rw [hr]
    rfl
  · have hLok : ∀ l ∈ v.lineas, db.productos.contains l.articulo = true := by
      intro l hl
      by_contra hc
      simp only [Bool.not_eq_true] at hc
      exact hline (List.any_eq_true.mpr ⟨l, hl, by simp only [hc, Bool.not_false]⟩)
    have hpago : v.pagos.any (fun p => !(metodoAllowed p.metodo)) = true := by
      have h2 := h
      simp only [ventaFails, Bool.or_eq_true] at h2
      rcases h2 with h1 | h2
      · exact absurd h1 hline
      · exact h2
    unfold ventaTxnBody
    dsimp only
    rw [insertLineas_ok v.id_venta v.lineas
        (deleteLineas (upsertVentaHeader e t db v) v.id_venta) 0 hLok]
    show ∃ r, insertPagos v.id_venta _ v.pagos = Except.error r
    exact insertPagos_err v.id_venta v.pagos _ hpago

/-! ## The per-item sale loop -/

/-- One loop step on a sale whose transaction commits. -/
theorem runVentas_cons_ok (e : Option String) (t : Nat) (db : DB)
    (v : Venta) (rest : List Venta) (h : ventaFails db v = false) :
    runVentas e t db (v :: rest) =
      ((runVentas e t (applyVenta e t db v) rest).1,
       (runVentas e t (applyVenta e t db v) rest).2.1 + 1,
       (runVentas e t (applyVenta e t db v) rest).2.2.1,
       (runVentas e t (applyVenta e t db v) rest).2.2.2) := by
  have hw : withTransaction db (fun d => ventaTxnBody e t d v) =
      (applyVenta e t db v, none) := by
    unfold withTransaction
    dsimp only
    rw [ventaTxnBody_ok e t db v h]
  rw [runVentas, hw]

/-- One loop step on a sale whose transaction raises: the store rolls
back and the error is recorded under the sale's natural id. -/
theorem runVentas_cons_err (e : Option String) (t : Nat) (db : DB)
    (v : Venta) (rest : List Venta) (h : ventaFails db v = true) :
    ∃ r, runVentas e t db (v :: rest) =
      ((runVentas e t db rest).1,
       (runVentas e t db rest).2.1,
       (runVentas e t db rest).2.2.1 + 1,
       ⟨v.id_venta, r⟩ :: (runVentas e t db rest).2.2.2) := by
  obtain ⟨r, hr⟩ := ventaTxnBody_err e t db v h
  have hw : withTransaction db (fun d => ventaTxnBody e t d v) =
      (db, some r) := by
    unfold withTransaction
    dsimp only
    rw [hr]
  refine ⟨r, ?_⟩
  rw [runVentas, hw]

/-- The sale loop never touches the SKU catalog. -/
theorem runVentas_productos (e : Option String) (t : Nat) :
    ∀ (batch : List Venta) (db : DB),
      (runVentas e t db batch).1.productos = db.productos := by
  intro batch
  induction batch with
  | nil => intro db; rfl
  | cons v rest ih =>
      intro db
      by_cases hv : ventaFails db v = true
      · obtain ⟨r, hr⟩ := runVentas_cons_err e t db v rest hv
        rw [hr]
        exact ih db
      · rw [runVentas_cons_ok e t db v rest (by simpa using hv)]
        exact ih (applyVenta e t db v)

/-- Counts and error attribution of the sale loop: `ok` counts the
non-violating items, `error` the violating ones, and the recorded error
ids are exactly the violating items' ids in order. -/
theorem runVentas_counts (e : Option String) (t : Nat) :
    ∀ (batch : List Venta) (db : DB),
      (runVentas e t db batch).2.1 =
        (batch.filter fun v => !(ventaFails db v)).length ∧
      (runVentas e t db batch).2.2.1 =
        (batch.filter fun v => ventaFails db v).length ∧
      ((runVentas e t db batch).2.2.2).map ErrVenta.id_venta =
        (batch.filter fun v => ventaFails db v).map Venta.id_venta := by
  intro batch
  induction batch with
  | nil => intro db; exact ⟨rfl, rfl, rfl⟩
  | cons v rest ih =>
      intro db
      by_cases hv : ventaFails db v = true
      · obtain ⟨r, hr⟩ := runVentas_cons_err e t db v rest hv
        rw [hr]
        obtain ⟨h1, h2, h3⟩ := ih db
        refine ⟨?_, ?_, ?_⟩
        · simpa [List.filter_cons, hv] using h1
        · simpa [List.filter_cons, hv] using h2
        · simpa [List.filter_cons, hv] using h3
      · have hv' : ventaFails db v = false := by simpa using hv
        rw [runVentas_cons_ok e t db v rest hv']
        have hcongr : ventaFails (applyVenta e t db v) = ventaFails db :=
          ventaFails_congr rfl
        obtain ⟨h1, h2, h3⟩ := ih (applyVenta e t db v)
        simp only [hcongr] at h1 h2 h3
        refine ⟨?_, ?_, ?_⟩
        · simpa [List.filter_cons, hv'] using h1
        · simpa [List.filter_cons, hv'] using h2
        · simpa [List.filter_cons, hv'] using h3

/-- Failure isolation: the store after the loop is exactly the store
after running only the non-violating items — a violating item
contributes nothing. -/
theorem runVentas_filter (e : Option String) (t : Nat) :
    ∀ (batch : List Venta) (db : DB),
      (runVentas e t db batch).1 =
        (runVentas e t db (batch.filter fun v => !(ventaFails db v))).1 := by
  intro batch
  induction batch with
  | nil => intro db; rfl
  | cons v rest ih =>
      intro db
      by_cases hv : ventaFails db v = true
      · obtain ⟨r, hr⟩ := runVentas_cons_err e t db v rest hv
        rw [hr, List.filter_cons_of_neg (by simp [hv])]
        exact ih db
      · have hv' : ventaFails db v = false := by simpa using hv
        rw [List.filter_cons_of_pos (by simp [hv']),
          runVentas_cons_ok e t db v rest hv',
          runVentas_cons_ok e t db v
            (List.filter (fun w => !(ventaFails db w)) rest) hv']
        have hcongr : ventaFails (applyVenta e t db v) = ventaFails db :=
          ventaFails_congr rfl
        have := ih (applyVenta e t db v)
        simp only [hcongr] at this
        exact this

/-! ## Unfolding the endpoints -/

/-- POST /ventas/import-batch on a non-empty batch, in terms of the
loop's outcome. -/
theorem importVentasBatch_ne (e : Option String) (t : Nat) (b s : String)
    (db : DB) (batch : List Venta) (h : batch ≠ []) :
    importVentasBatch e t b s db batch =
      (let maxIdVenta := batch.foldl (fun m v => max m v.id_venta) 0
       let r := runVentas e t db batch
       let db2 :=
         { r.1 with
           importLog := r.1.importLog ++
             [{ batch_id := b, source_id := s, items := batch.length,
                ok := r.2.1, dup := 0, error := r.2.2.1,
                details := (r.2.2.2).map fun er => (er.id_venta, er.reason) }] }
       let db3 :=
         if maxIdVenta > 0 then advanceCursor db2 s maxIdVenta else db2
       (db3,
        { ok := r.2.1, dup := 0, error := r.2.2.1, batch_id := some b,
          errors := r.2.2.2 })) := by
  unfold importVentasBatch
  rw [if_neg (by simpa using h)]

/-- POST /cancelaciones/import-batch: every item's transaction commits,
so the loop applies every item and records no error. -/
theorem cancelacionTxnBody_eq (e : Option String) (t : Nat) (db : DB)
    (c : Cancelacion) :
    cancelacionTxnBody e t db c =
      Except.ok (applyCancelacion e t db c) := by
  unfold cancelacionTxnBody applyCancelacion
  rcases c.venta_id with _ | vid <;> rfl

/-- One cancellation loop step. -/
theorem runCancelaciones_cons (e : Option String) (t : Nat) (db : DB)
    (c : Cancelacion) (rest : List Cancelacion) :
    runCancelaciones e t db (c :: rest) =
      ((runCancelaciones e t (applyCancelacion e t db c) rest).1,
       (runCancelaciones e t (applyCancelacion e t db c) rest).2.1 + 1,
       (runCancelaciones e t (applyCancelacion e t db c) rest).2.2.1,
       (runCancelaciones e t (applyCancelacion e t db c) rest).2.2.2) := by
  have hw : withTransaction db (fun d => cancelacionTxnBody e t d c) =
      (applyCancelacion e t db c, none) := by
    unfold withTransaction
    dsimp only
    rw [cancelacionTxnBody_eq e t db c]
  rw [runCancelaciones, hw]

/-- The cancellation loop commits every item: `ok` counts all of them,
no error is ever recorded. -/
theorem runCancelaciones_all_ok (e : Option String) (t : Nat) :
    ∀ (items : List Cancelacion) (db : DB),
      (runCancelaciones e t db items).2.1 = items.length ∧
      (runCancelaciones e t db items).2.2.1 = 0 ∧
      (runCancelaciones e t db items).2.2.2 = [] := by
  intro items
  induction items with
  | nil => intro db; exact ⟨rfl, rfl, rfl⟩
  | cons c rest ih =>
      intro db
      rw [runCancelaciones_cons]
      obtain ⟨h1, h2, h3⟩ := ih (applyCancelacion e t db c)
      exact ⟨by simp [h1], h2, h3⟩

/-- The cancellation loop never touches `estado_sincronizacion`. -/
theorem runCancelaciones_estadoSync (e : Option String) (t : Nat) :
    ∀ (items : List Cancelacion) (db : DB),
      (runCancelaciones e t db items).1.estadoSync = db.estadoSync := by
  intro items
  induction items with
  | nil => intro db; rfl
  | cons c rest ih =>
      intro db
      rw [runCancelaciones_cons]
      have h1 := ih (applyCancelacion e t db c)
      have h2 : (applyCancelacion e t db c).estadoSync = db.estadoSync := by
        unfold applyCancelacion
        rcases c.venta_id with _ | vid
        · rfl
        · simp
      rw [h1, h2]

/-- POST /cancelaciones/import-batch on a non-empty batch. -/
theorem importCancelacionesBatch_ne (e : Option String) (t : Nat)
    (b s : String) (db : DB) (items : List Cancelacion) (h : items ≠ []) :
    importCancelacionesBatch e t b s db items =
      (let maxCancelId :=
         items.foldl (fun m c => max m c.id_cancelacion_origen) 0
       let r := runCancelaciones e t db items
       let db2 :=
         { r.1 with
           importLog := r.1.importLog ++
             [{ batch_id := b, source_id := s, items := items.length,
                ok := r.2.1, dup := 0, error := r.2.2.1,
                details :=
                  (r.2.2.2).map fun er =>
                    (er.id_cancelacion_origen, er.reason) }] }
       (db2,
        { ok := r.2.1, dup := 0, error := r.2.2.1, batch_id := some b,
          errors := r.2.2.2, max_id_cancelacion := some maxCancelId })) := by
  unfold importCancelacionesBatch
  rw [if_neg (by simpa using h)]

/-! ## Row-spec helpers -/

theorem lineasRows_length (vid : Int) :
    ∀ (idx : Nat) (ls : List Linea),
      (lineasRows vid idx ls).length = ls.length := by
  intro idx ls
  induction ls generalizing idx with
  | nil => rfl
  | cons l rest ih => simp [lineasRows, ih]

/-- The stored line numbers are `idx+1, idx+2, ...`: positional, not
caller-supplied. -/
theorem lineasRows_renglones (vid : Int) :
    ∀ (ls : List Linea) (idx : Nat),
      (lineasRows vid idx ls).map LineaRow.renglon =
        List.range' (idx + 1) ls.length := by
  intro ls
  induction ls with
  | nil => intro idx; rfl
  | cons l rest ih =>
      intro idx
      rw [lineasRows, List.map_cons, List.length_cons, List.range'_succ,
        mkLineaRow, ih (idx + 1)]

theorem pagosRows_length (vid : Int) (ps : List Pago) :
    (pagosRows vid ps).length = ps.length := by
  simp [pagosRows]

theorem filter_length_split {α : Type} (l : List α) (p : α → Bool) :
    (l.filter fun x => !(p x)).length + (l.filter p).length = l.length := by
  induction l with
  | nil => rfl
  | cons x xs ih =>
      by_cases h : p x = true
      · simp [List.filter_cons, h, ← ih]
        omega
      · simp [List.filter_cons, h, ← ih]
        omega

/-! ## Singleton-batch evaluations -/

theorem runVentas_single_ok (e : Option String) (t : Nat) (db : DB)
    (v : Venta) (h : ventaFails db v = false) :
    runVentas e t db [v] = (applyVenta e t db v, 1, 0, []) := by
  rw [runVentas_cons_ok e t db v [] h]
  rfl

theorem runVentas_single_err (e : Option String) (t : Nat) (db : DB)
    (v : Venta) (h : ventaFails db v = true) :
    ∃ r, runVentas e t db [v] = (db, 0, 1, [⟨v.id_venta, r⟩]) := by
  obtain ⟨r, hr⟩ := runVentas_cons_err e t db v [] h
  exact ⟨r, hr⟩

theorem runCancelaciones_single (e : Option String) (t : Nat) (db : DB)
    (c : Cancelacion) :
    runCancelaciones e t db [c] = (applyCancelacion e t db c, 1, 0, []) := by
  rw [runCancelaciones_cons]
  rfl

/-- The sale loop never touches `estado_sincronizacion`. -/
theorem runVentas_estadoSync (e : Option String) (t : Nat) :
    ∀ (batch : List Venta) (db : DB),
      (runVentas e t db batch).1.estadoSync = db.estadoSync := by
  intro batch
  induction batch with
  | nil => intro db; rfl
  | cons v rest ih =>
      intro db
      by_cases hv : ventaFails db v = true
      · obtain ⟨r, hr⟩ := runVentas_cons_err e t db v rest hv
        rw [hr]
        exact ih db
      · rw [runVentas_cons_ok e t db v rest (by simpa using hv)]
        exact ih (applyVenta e t db v)

/-- The audit append and the cursor upsert leave the sale, line,
payment, SKU and cancellation tables of the final store exactly as the
loop left them. -/
theorem importVentasBatch_core (e : Option String) (t : Nat) (b s : String)
    (db : DB) (batch : List Venta) (h : batch ≠ []) :
    (importVentasBatch e t b s db batch).1.ventas =
        (runVentas e t db batch).1.ventas ∧
      (importVentasBatch e t b s db batch).1.lineas =
        (runVentas e t db batch).1.lineas ∧
      (importVentasBatch e t b s db batch).1.pagos =
        (runVentas e t db batch).1.pagos ∧
      (importVentasBatch e t b s db batch).1.productos =
        (runVentas e t db batch).1.productos ∧
      (importVentasBatch e t b s db batch).1.cancelaciones =
        (runVentas e t db batch).1.cancelaciones := by
  rw [importVentasBatch_ne e t b s db batch h]
  dsimp only
  split
  · exact ⟨rfl, rfl, rfl, rfl, rfl⟩
  · exact ⟨rfl, rfl, rfl, rfl, rfl⟩

/-- The response of a non-empty sale batch, in terms of the loop. -/
theorem importVentasBatch_resp (e : Option String) (t : Nat) (b s : String)
    (db : DB) (batch : List Venta) (h : batch ≠ []) :
    (importVentasBatch e t b s db batch).2 =
      { ok := (runVentas e t db batch).2.1, dup := 0,
        error := (runVentas e t db batch).2.2.1, batch_id := some b,
        errors := (runVentas e t db batch).2.2.2 } := by
  rw [importVentasBatch_ne e t b s db batch h]

/-- Same for cancellations: the audit append leaves the data tables as
the loop left them, and the cursor table is never written at all. -/
theorem importCancelacionesBatch_core (e : Option String) (t : Nat)
    (b s : String) (db : DB) (items : List Cancelacion) (h : items ≠ []) :
    (importCancelacionesBatch e t b s db items).1.ventas =
        (runCancelaciones e t db items).1.ventas ∧
      (importCancelacionesBatch e t b s db items).1.cancelaciones =
        (runCancelaciones e t db items).1.cancelaciones ∧
      (importCancelacionesBatch e t b s db items).1.estadoSync =
        db.estadoSync := by
  rw [importCancelacionesBatch_ne e t b s db items h]
  exact ⟨rfl, rfl, runCancelaciones_estadoSync e t items db⟩

/-- The response of a non-empty cancellation batch. -/
theorem importCancelacionesBatch_resp (e : Option String) (t : Nat)
    (b s : String) (db : DB) (items : List Cancelacion) (h : items ≠ []) :
    (importCancelacionesBatch e t b s db items).2 =
      { ok := items.length, dup := 0, error := 0, batch_id := some b,
        errors := [],
        max_id_cancelacion :=
          some (items.foldl (fun m c => max m c.id_cancelacion_origen) 0) } := by
  rw [importCancelacionesBatch_ne e t b s db items h]
  obtain ⟨h1, h2, h3⟩ := runCancelaciones_all_ok e t items db
  dsimp only
  rw [h1, h2, h3]

/-! ## Claims -/

/-- C8: submitting an empty array to either import endpoint returns the
zeroed summary `{ok := 0, dup := 0, error := 0, batch_id := none,
errors := []}` and performs no persistence at all: the store is returned
unchanged, so no `import_log` row is written and no sync-cursor update
occurs. -/
theorem claim_C8 (e : Option String) (t : Nat) (b s : String) (db : DB) :
    importVentasBatch e t b s db [] =
        (db, { ok := 0, dup := 0, error := 0, batch_id := none,
               errors := [] }) ∧
      importCancelacionesBatch e t b s db [] =
        (db, { ok := 0, dup := 0, error := 0, batch_id := none,
               errors := [], max_id_cancelacion := none }) :=
  ⟨rfl, rfl⟩

/-- C1: a successful import of a sale payload with `n` lines and `m`
payments leaves exactly the `n` mapped line rows — numbered `1..n` from
array position — and exactly the `m` mapped payment rows stored for that
sale id; the stored child rows are a function of the payload alone, so no
line or payment row from any earlier import of the same id survives. -/
theorem claim_C1 (e : Option String) (t : Nat) (b s : String) (db : DB)
    (v : Venta) (h : ventaFails db v = false) :
    (importVentasBatch e t b s db [v]).1.lineas v.id_venta =
        lineasRows v.id_venta 0 v.lineas ∧
      ((importVentasBatch e t b s db [v]).1.lineas v.id_venta).length =
        v.lineas.length ∧
      ((importVentasBatch e t b s db [v]).1.lineas v.id_venta).map
          LineaRow.renglon =
        List.range' 1 v.lineas.length ∧
      (importVentasBatch e t b s db [v]).1.pagos v.id_venta =
        pagosRows v.id_venta v.pagos ∧
      ((importVentasBatch e t b s db [v]).1.pagos v.id_venta).length =
        v.pagos.length := by
  obtain ⟨-, hl, hp, -, -⟩ := importVentasBatch_core e t b s db [v] (by simp)
  rw [hl, hp, runVentas_single_ok e t db v h]
  refine ⟨by simp, ?_, ?_, by simp, ?_⟩
  · simp [lineasRows_length]
  · simpa using lineasRows_renglones v.id_venta v.lineas 0
  · simp [pagosRows_length]

/-- C1 witness: importing sale 10 (two lines over known SKUs, one
payment) into the catalog store yields exactly two line rows numbered
1 and 2 and one payment row. -/
theorem claim_C1_witness :
    ventaFails dbSKU venta10 = false ∧
      ((importVentasBatch none 5 "b1" "POS-1" dbSKU [venta10]).1.lineas
            venta10.id_venta =
          lineasRows venta10.id_venta 0 venta10.lineas ∧
        ((importVentasBatch none 5 "b1" "POS-1" dbSKU [venta10]).1.lineas
              venta10.id_venta).length =
          venta10.lineas.length ∧
        ((importVentasBatch none 5 "b1" "POS-1" dbSKU [venta10]).1.lineas
              venta10.id_venta).map LineaRow.renglon =
          List.range' 1 venta10.lineas.length ∧
        (importVentasBatch none 5 "b1" "POS-1" dbSKU [venta10]).1.pagos
            venta10.id_venta =
          pagosRows venta10.id_venta venta10.pagos ∧
        ((importVentasBatch none 5 "b1" "POS-1" dbSKU [venta10]).1.pagos
              venta10.id_venta).length =
          venta10.pagos.length) :=
  ⟨by decide, claim_C1 none 5 "b1" "POS-1" dbSKU venta10 (by decide)⟩

/-- C4: the stored `total` column of a successfully imported sale always
equals the server-side sum `subtotal + impuestos`, and the caller's
`total` field is never used: replacing it by any value yields the
identical import outcome (stored state and response). -/
theorem claim_C4 (e : Option String) (t : Nat) (b s : String) (db : DB)
    (v : Venta) (h : ventaFails db v = false) :
    ((importVentasBatch e t b s db [v]).1.ventas v.id_venta).map
        VentaRow.total =
      some (v.subtotal + v.impuestos) ∧
    ∀ x : Rat,
      importVentasBatch e t b s db [{ v with total := x }] =
        importVentasBatch e t b s db [v] := by
  constructor
  · obtain ⟨hv, -, -, -, -⟩ := importVentasBatch_core e t b s db [v] (by simp)
    rw [hv, runVentas_single_ok e t db v h]
    rcases hold : db.ventas v.id_venta with _ | old <;>
      simp [headerRow, headerScalars, hold]
  · intro x
    rfl

/-- C4 witness: sale 10 carries `subtotal = 100`, `impuestos = 16` and a
bogus caller `total = 999`; the stored total is `116`. -/
theorem claim_C4_witness :
    ventaFails dbSKU venta10 = false ∧
      (((importVentasBatch none 5 "b1" "POS-1" dbSKU [venta10]).1.ventas
            venta10.id_venta).map VentaRow.total =
          some (venta10.subtotal + venta10.impuestos) ∧
        ∀ x : Rat,
          importVentasBatch none 5 "b1" "POS-1" dbSKU
              [{ venta10 with total := x }] =
            importVentasBatch none 5 "b1" "POS-1" dbSKU [venta10]) :=
  ⟨by decide, claim_C4 none 5 "b1" "POS-1" dbSKU venta10 (by decide)⟩

/-- C9: the header row stored by a successful sale import carries the
configured forced branch (`FORCED_SUCURSAL_ID`, defaulting to
`"moncar"` when the environment variable is absent); the caller's
`sucursal` field is never used, so two payloads differing only in it
produce the identical import outcome. -/
theorem claim_C9 (e : Option String) (t : Nat) (b s : String) (db : DB)
    (v : Venta) (h : ventaFails db v = false) :
    ((importVentasBatch e t b s db [v]).1.ventas v.id_venta).map
        VentaRow.sucursal_id =
      some (FORCED_SUCURSAL_ID e) ∧
    FORCED_SUCURSAL_ID none = "moncar" ∧
    ∀ s1 s2 : Option String,
      importVentasBatch e t b s db [{ v with sucursal := s1 }] =
        importVentasBatch e t b s db [{ v with sucursal := s2 }] := by
  refine ⟨?_, rfl, fun s1 s2 => rfl⟩
  obtain ⟨hv, -, -, -, -⟩ := importVentasBatch_core e t b s db [v] (by simp)
  rw [hv, runVentas_single_ok e t db v h]
  rcases hold : db.ventas v.id_venta with _ | old <;>
    simp [headerRow, headerScalars, hold]

/-- C9 witness: the row stored for sale 10 carries branch `"moncar"`,
and changing the caller-supplied `sucursal` changes nothing. -/
theorem claim_C9_witness :
    ventaFails dbSKU venta10 = false ∧
      (((importVentasBatch none 5 "b1" "POS-1" dbSKU [venta10]).1.ventas
            venta10.id_venta).map VentaRow.sucursal_id =
          some (FORCED_SUCURSAL_ID none) ∧
        FORCED_SUCURSAL_ID none = "moncar" ∧
        ∀ s1 s2 : Option String,
          importVentasBatch none 5 "b1" "POS-1" dbSKU
              [{ venta10 with sucursal := s1 }] =
            importVentasBatch none 5 "b1" "POS-1" dbSKU
              [{ venta10 with sucursal := s2 }]) :=
  ⟨by decide, claim_C9 none 5 "b1" "POS-1" dbSKU venta10 (by decide)⟩

/-- C10: re-importing a sale whose header row already exists updates the
scalar columns and the `actualizado_en` timestamp but leaves the five
cancellation-related columns exactly as they were: a sale flagged
cancelled stays cancelled with its cancellation metadata intact. -/
theorem claim_C10 (e : Option String) (t : Nat) (b s : String) (db : DB)
    (v : Venta) (old : VentaRow)
    (hold : db.ventas v.id_venta = some old)
    (h : ventaFails db v = false) :
    ∃ r, (importVentasBatch e t b s db [v]).1.ventas v.id_venta = some r ∧
      r.cancelada = old.cancelada ∧
      r.fecha_cancelacion = old.fecha_cancelacion ∧
      r.motivo_cancelacion = old.motivo_cancelacion ∧
      r.folio_sustitucion = old.folio_sustitucion ∧
      r.uuid_cfdi = old.uuid_cfdi ∧
      r.actualizado_en = t ∧
      r.fecha_emision = v.fecha_emision ∧
      r.subtotal = v.subtotal ∧
      r.impuesto = v.impuestos ∧
      r.total = v.subtotal + v.impuestos := by
  obtain ⟨hv, -, -, -, -⟩ := importVentasBatch_core e t b s db [v] (by simp)
  refine ⟨headerRow e t db v, ?_, ?_, ?_, ?_, ?_, ?_, ?_, ?_, ?_, ?_, ?_⟩
  · rw [hv, runVentas_single_ok e t db v h]
    simp
  all_goals simp [headerRow, headerScalars, hold]

/-- C10 witness: re-importing sale 10 over a store where it is already
flagged cancelled keeps `cancelada = true` and all four metadata
columns. -/
theorem claim_C10_witness :
    dbVenta10.ventas venta10.id_venta = some row10c ∧
      ventaFails dbVenta10 venta10 = false ∧
      ∃ r,
        (importVentasBatch none 5 "b1" "POS-1" dbVenta10
              [venta10]).1.ventas venta10.id_venta = some r ∧
          r.cancelada = row10c.cancelada ∧
          r.fecha_cancelacion = row10c.fecha_cancelacion ∧
          r.motivo_cancelacion = row10c.motivo_cancelacion ∧
          r.folio_sustitucion = row10c.folio_sustitucion ∧
          r.uuid_cfdi = row10c.uuid_cfdi ∧
          r.actualizado_en = 5 ∧
          r.fecha_emision = venta10.fecha_emision ∧
          r.subtotal = venta10.subtotal ∧
          r.impuesto = venta10.impuestos ∧
          r.total = venta10.subtotal + venta10.impuestos :=
  ⟨by decide, by decide,
    claim_C10 none 5 "b1" "POS-1" dbVenta10 venta10 row10c (by decide)
      (by decide)⟩

/-- C2: importing the same sale payload twice leaves, after the second
run, exactly the stored header (up to `actualizado_en`), line set and
payment set that the first import left for that sale id — the second
run is a no-op on the stored state of the sale. -/
theorem claim_C2 (e : Option String) (t1 t2 : Nat) (b1 b2 s : String)
    (db : DB) (v : Venta) :
    ((importVentasBatch e t2 b2 s
          (importVentasBatch e t1 b1 s db [v]).1 [v]).1.ventas
          v.id_venta).map VentaRow.sinTimestamp =
        ((importVentasBatch e t1 b1 s db [v]).1.ventas v.id_venta).map
          VentaRow.sinTimestamp ∧
      (importVentasBatch e t2 b2 s
          (importVentasBatch e t1 b1 s db [v]).1 [v]).1.lineas v.id_venta =
        (importVentasBatch e t1 b1 s db [v]).1.lineas v.id_venta ∧
      (importVentasBatch e t2 b2 s
          (importVentasBatch e t1 b1 s db [v]).1 [v]).1.pagos v.id_venta =
        (importVentasBatch e t1 b1 s db [v]).1.pagos v.id_venta := by
  obtain ⟨hv1, hl1, hp1, hprod1, -⟩ :=
    importVentasBatch_core e t1 b1 s db [v] (by simp)
  obtain ⟨hv2, hl2, hp2, -, -⟩ :=
    importVentasBatch_core e t2 b2 s
      (importVentasBatch e t1 b1 s db [v]).1 [v] (by simp)
  by_cases hf : ventaFails db v = true
  · obtain ⟨r1, hr1⟩ := runVentas_single_err e t1 db v hf
    have hdv : (importVentasBatch e t1 b1 s db [v]).1.ventas = db.ventas := by
      rw [hv1, hr1]
    have hdl : (importVentasBatch e t1 b1 s db [v]).1.lineas = db.lineas := by
      rw [hl1, hr1]
    have hdp : (importVentasBatch e t1 b1 s db [v]).1.pagos = db.pagos := by
      rw [hp1, hr1]
    have hdprod :
        (importVentasBatch e t1 b1 s db [v]).1.productos = db.productos := by
      rw [hprod1, hr1]
    have hf1 : ventaFails (importVentasBatch e t1 b1 s db [v]).1 v = true := by
      rw [ventaFails_congr hdprod]
      exact hf
    obtain ⟨r2, hr2⟩ :=
      runVentas_single_err e t2 (importVentasBatch e t1 b1 s db [v]).1 v hf1
    refine ⟨?_, ?_, ?_⟩
    · rw [hv2, hr2]
    · rw [hl2, hr2]
    · rw [hp2, hr2]
  · have hf0 : ventaFails db v = false := by simpa using hf
    have hdprod :
        (importVentasBatch e t1 b1 s db [v]).1.productos = db.productos := by
      rw [hprod1, runVentas_single_ok e t1 db v hf0]
      rfl
    have hf1 :
        ventaFails (importVentasBatch e t1 b1 s db [v]).1 v = false := by
      rw [ventaFails_congr hdprod]
      exact hf0
    have hdv :
        (importVentasBatch e t1 b1 s db [v]).1.ventas =
          (applyVenta e t1 db v).ventas := by
      rw [hv1, runVentas_single_ok e t1 db v hf0]
    have hdl :
        (importVentasBatch e t1 b1 s db [v]).1.lineas =
          (applyVenta e t1 db v).lineas := by
      rw [hl1, runVentas_single_ok e t1 db v hf0]
    have hdp :
        (importVentasBatch e t1 b1 s db [v]).1.pagos =
          (applyVenta e t1 db v).pagos := by
      rw [hp1, runVentas_single_ok e t1 db v hf0]
    rw [hv2, hl2, hp2,
      runVentas_single_ok e t2 (importVentasBatch e t1 b1 s db [v]).1 v hf1]
    have h1 :
        (importVentasBatch e t1 b1 s db [v]).1.ventas v.id_venta =
          some (headerRow e t1 db v) := by
      rw [hdv]
      simp
    refine ⟨?_, ?_, ?_⟩
    · simp only [applyVenta_ventas, if_pos, h1, Option.map_some]
      have hrow :
          headerRow e t2 (importVentasBatch e t1 b1 s db [v]).1 v =
            { headerScalars e t2 v with
              cancelada := (headerRow e t1 db v).cancelada
              fecha_cancelacion := (headerRow e t1 db v).fecha_cancelacion
              motivo_cancelacion := (headerRow e t1 db v).motivo_cancelacion
              folio_sustitucion := (headerRow e t1 db v).folio_sustitucion
              uuid_cfdi := (headerRow e t1 db v).uuid_cfdi } := by
        rw [headerRow, h1]
      rw [hrow]
      rcases hold : db.ventas v.id_venta with _ | old <;>
        simp [headerRow, headerScalars, VentaRow.sinTimestamp, hold]
    · rw [hdl]
      simp
    · rw [hdp]
      simp

/-- C7: a cancellation referencing a sale id absent from the store
succeeds (counted ok, no error recorded) and leaves the sale table
untouched — the flag-flipping UPDATE is a silent no-op and no sale row
is created. -/
theorem claim_C7 (e : Option String) (t : Nat) (b s : String) (db : DB)
    (c : Cancelacion) (vid : Int) (hcv : c.venta_id = some vid)
    (habs : db.ventas vid = none) :
    (importCancelacionesBatch e t b s db [c]).2.ok = 1 ∧
      (importCancelacionesBatch e t b s db [c]).2.error = 0 ∧
      (importCancelacionesBatch e t b s db [c]).2.errors = [] ∧
      (importCancelacionesBatch e t b s db [c]).1.ventas = db.ventas := by
  have hresp := importCancelacionesBatch_resp e t b s db [c] (by simp)
  refine ⟨by rw [hresp]; rfl, by rw [hresp], by rw [hresp], ?_⟩
  obtain ⟨hv, -, -⟩ := importCancelacionesBatch_core e t b s db [c] (by simp)
  rw [hv, runCancelaciones_single]
  unfold applyCancelacion
  rw [hcv]
  dsimp only
  rw [markVentaCancelada_absent e t (upsertCancelacion db c) vid c habs]
  rfl

/-- C7 witness: cancellation 7 references sale 77 on the empty store;
the import reports ok and the sale table stays empty. -/
theorem claim_C7_witness :
    cancel7.venta_id = some 77 ∧
      DB.empty.ventas 77 = none ∧
      ((importCancelacionesBatch none 0 "b1" "POS-1" DB.empty
            [cancel7]).2.ok = 1 ∧
        (importCancelacionesBatch none 0 "b1" "POS-1" DB.empty
            [cancel7]).2.error = 0 ∧
        (importCancelacionesBatch none 0 "b1" "POS-1" DB.empty
            [cancel7]).2.errors = [] ∧
        (importCancelacionesBatch none 0 "b1" "POS-1" DB.empty
            [cancel7]).1.ventas = DB.empty.ventas) :=
  ⟨by decide, rfl,
    claim_C7 none 0 "b1" "POS-1" DB.empty cancel7 77 (by decide) rfl⟩

/-- C5: a cancellation upsert that hits an existing row overwrites each
of the six payload columns only when the incoming value is non-null; an
incoming null leaves the stored value unchanged. -/
theorem claim_C5 (e : Option String) (t : Nat) (b s : String) (db : DB)
    (c : Cancelacion) (old : CancelacionRow)
    (hold : db.cancelaciones c.id_cancelacion_origen = some old) :
    ∃ r,
      (importCancelacionesBatch e t b s db [c]).1.cancelaciones
          c.id_cancelacion_origen = some r ∧
        (c.venta_id = none → r.venta_id = old.venta_id) ∧
        (∀ x, c.venta_id = some x → r.venta_id = some x) ∧
        (c.fecha_emision = none → r.fecha_emision = old.fecha_emision) ∧
        (∀ x, c.fecha_emision = some x → r.fecha_emision = some x) ∧
        (c.fecha_cancelacion = none →
          r.fecha_cancelacion = old.fecha_cancelacion) ∧
        (∀ x, c.fecha_cancelacion = some x → r.fecha_cancelacion = some x) ∧
        (c.motivo_cancelacion = none →
          r.motivo_cancelacion = old.motivo_cancelacion) ∧
        (∀ x, c.motivo_cancelacion = some x →
          r.motivo_cancelacion = some x) ∧
        (c.folio_sustitucion = none →
          r.folio_sustitucion = old.folio_sustitucion) ∧
        (∀ x, c.folio_sustitucion = some x → r.folio_sustitucion = some x) ∧
        (c.uuid_cfdi = none → r.uuid_cfdi = old.uuid_cfdi) ∧
        (∀ x, c.uuid_cfdi = some x → r.uuid_cfdi = some x) := by
  obtain ⟨-, hc, -⟩ := importCancelacionesBatch_core e t b s db [c] (by simp)
  have happ :
      (applyCancelacion e t db c).cancelaciones =
        (upsertCancelacion db c).cancelaciones := by
    unfold applyCancelacion
    rcases hcv : c.venta_id with _ | vid
    · rfl
    · dsimp only
      rw [markVentaCancelada_cancelaciones]
  refine
    ⟨{ id_cancelacion_origen := c.id_cancelacion_origen
       venta_id := c.venta_id <|> old.venta_id
       fecha_emision := c.fecha_emision <|> old.fecha_emision
       fecha_cancelacion := c.fecha_cancelacion <|> old.fecha_cancelacion
       motivo_cancelacion := c.motivo_cancelacion <|> old.motivo_cancelacion
       folio_sustitucion := c.folio_sustitucion <|> old.folio_sustitucion
       uuid_cfdi := c.uuid_cfdi <|> old.uuid_cfdi }, ?_, ?_, ?_, ?_, ?_,
      ?_, ?_, ?_, ?_, ?_, ?_, ?_, ?_⟩
  · rw [hc, runCancelaciones_single]
    dsimp only
    rw [happ]
    unfold upsertCancelacion
    dsimp only
    rw [hold]
    simp
  all_goals
    first
      | (intro h; simp [h])
      | (intro x h; simp [h])

/-- C5 witness: the spec's own example — importing cancellation 1 with
reason "A", then re-importing id 1 with a null reason and replacement
folio "F1": the reason survives and the folio is added. -/
theorem claim_C5_witness :
    (importCancelacionesBatch none 0 "b0" "POS-1" DB.empty
          [cancel1a]).1.cancelaciones cancel1b.id_cancelacion_origen =
        some cancelRow1A ∧
      ∃ r,
        (importCancelacionesBatch none 1 "b1" "POS-1"
              (importCancelacionesBatch none 0 "b0" "POS-1" DB.empty
                [cancel1a]).1 [cancel1b]).1.cancelaciones
            cancel1b.id_cancelacion_origen = some r ∧
          (cancel1b.venta_id = none → r.venta_id = cancelRow1A.venta_id) ∧
          (∀ x, cancel1b.venta_id = some x → r.venta_id = some x) ∧
          (cancel1b.fecha_emision = none →
            r.fecha_emision = cancelRow1A.fecha_emision) ∧
          (∀ x, cancel1b.fecha_emision = some x →
            r.fecha_emision = some x) ∧
          (cancel1b.fecha_cancelacion = none →
            r.fecha_cancelacion = cancelRow1A.fecha_cancelacion) ∧
          (∀ x, cancel1b.fecha_cancelacion = some x →
            r.fecha_cancelacion = some x) ∧
          (cancel1b.motivo_cancelacion = none →
            r.motivo_cancelacion = cancelRow1A.motivo_cancelacion) ∧
          (∀ x, cancel1b.motivo_cancelacion = some x →
            r.motivo_cancelacion = some x) ∧
          (cancel1b.folio_sustitucion = none →
            r.folio_sustitucion = cancelRow1A.folio_sustitucion) ∧
          (∀ x, cancel1b.folio_sustitucion = some x →
            r.folio_sustitucion = some x) ∧
          (cancel1b.uuid_cfdi = none →
            r.uuid_cfdi = cancelRow1A.uuid_cfdi) ∧
          (∀ x, cancel1b.uuid_cfdi = some x → r.uuid_cfdi = some x) :=
  ⟨by decide,
    claim_C5 none 1 "b1" "POS-1"
      (importCancelacionesBatch none 0 "b0" "POS-1" DB.empty [cancel1a]).1
      cancel1b cancelRow1A (by decide)⟩

/-- C3: once validation has passed, a non-empty sale batch always comes
back with the structured summary — `ok` counts the items whose
transaction commits, `error` the items whose transaction raises, they
sum to the batch size, each failure is attributed to its item's natural
id — and the final sale/line/payment tables equal those obtained
by importing only the committing items: the writes of a failing item are
fully rolled back while the writes of every other item are kept. -/
theorem claim_C3 (e : Option String) (t : Nat) (b s : String) (db : DB)
    (batch : List Venta) (hne : batch ≠ []) :
    (importVentasBatch e t b s db batch).2.ok =
        (batch.filter fun v => !(ventaFails db v)).length ∧
      (importVentasBatch e t b s db batch).2.error =
        (batch.filter fun v => ventaFails db v).length ∧
      (importVentasBatch e t b s db batch).2.ok +
          (importVentasBatch e t b s db batch).2.error = batch.length ∧
      ((importVentasBatch e t b s db batch).2.errors).map ErrVenta.id_venta =
        (batch.filter fun v => ventaFails db v).map Venta.id_venta ∧
      (importVentasBatch e t b s db batch).2.errors.length =
        (importVentasBatch e t b s db batch).2.error ∧
      (importVentasBatch e t b s db batch).2.batch_id = some b ∧
      (importVentasBatch e t b s db batch).1.ventas =
        (importVentasBatch e t b s db
            (batch.filter fun v => !(ventaFails db v))).1.ventas ∧
      (importVentasBatch e t b s db batch).1.lineas =
        (importVentasBatch e t b s db
            (batch.filter fun v => !(ventaFails db v))).1.lineas ∧
      (importVentasBatch e t b s db batch).1.pagos =
        (importVentasBatch e t b s db
            (batch.filter fun v => !(ventaFails db v))).1.pagos := by
  have hresp := importVentasBatch_resp e t b s db batch hne
  obtain ⟨hok, herr, herrs⟩ := runVentas_counts e t batch db
  have hlen :
      (runVentas e t db batch).2.2.2.length =
        (batch.filter fun v => ventaFails db v).length := by
    have h := congrArg List.length herrs
    simpa using h
  refine ⟨?_, ?_, ?_, ?_, ?_, ?_, ?_, ?_, ?_⟩
  · rw [hresp]
    exact hok
  · rw [hresp]
    exact herr
  · rw [hresp]
    dsimp only
    rw [hok, herr]
    exact filter_length_split batch (fun v => ventaFails db v)
  · rw [hresp]
    exact herrs
  · rw [hresp]
    dsimp only
    rw [hlen, herr]
  · rw [hresp]
  · obtain ⟨hv1, -, -, -, -⟩ := importVentasBatch_core e t b s db batch hne
    by_cases hemp : (batch.filter fun v => !(ventaFails db v)) = []
    · rw [hv1, runVentas_filter e t batch db, hemp]
      rfl
    · obtain ⟨hv2, -, -, -, -⟩ := importVentasBatch_core e t b s db _ hemp
      rw [hv1, hv2]
      exact congrArg DB.ventas (runVentas_filter e t batch db)
  · obtain ⟨-, hl1, -, -, -⟩ := importVentasBatch_core e t b s db batch hne
    by_cases hemp : (batch.filter fun v => !(ventaFails db v)) = []
    · rw [hl1, runVentas_filter e t batch db, hemp]
      rfl
    · obtain ⟨-, hl2, -, -, -⟩ := importVentasBatch_core e t b s db _ hemp
      rw [hl1, hl2]
      exact congrArg DB.lineas (runVentas_filter e t batch db)
  · obtain ⟨-, -, hp1, -, -⟩ := importVentasBatch_core e t b s db batch hne
    by_cases hemp : (batch.filter fun v => !(ventaFails db v)) = []
    · rw [hp1, runVentas_filter e t batch db, hemp]
      rfl
    · obtain ⟨-, -, hp2, -, -⟩ := importVentasBatch_core e t b s db _ hemp
      rw [hp1, hp2]
      exact congrArg DB.pagos (runVentas_filter e t batch db)

/-- C3 witness: the spec's example — a batch of three sales whose second
references an unknown SKU yields ok 2, error 1, the error attributed to
sale 11, and the same stored tables as importing only sales 10 and 12. -/
theorem claim_C3_witness :
    ([venta10, venta11, venta12] : List Venta) ≠ [] ∧
      ((importVentasBatch none 5 "b1" "POS-1" dbSKU
            [venta10, venta11, venta12]).2.ok =
          ([venta10, venta11, venta12].filter fun v =>
            !(ventaFails dbSKU v)).length ∧
        (importVentasBatch none 5 "b1" "POS-1" dbSKU
            [venta10, venta11, venta12]).2.error =
          ([venta10, venta11, venta12].filter fun v =>
            ventaFails dbSKU v).length ∧
        (importVentasBatch none 5 "b1" "POS-1" dbSKU
              [venta10, venta11, venta12]).2.ok +
            (importVentasBatch none 5 "b1" "POS-1" dbSKU
              [venta10, venta11, venta12]).2.error =
          [venta10, venta11, venta12].length ∧
        ((importVentasBatch none 5 "b1" "POS-1" dbSKU
              [venta10, venta11, venta12]).2.errors).map ErrVenta.id_venta =
          ([venta10, venta11, venta12].filter fun v =>
            ventaFails dbSKU v).map Venta.id_venta ∧
        (importVentasBatch none 5 "b1" "POS-1" dbSKU
            [venta10, venta11, venta12]).2.errors.length =
          (importVentasBatch none 5 "b1" "POS-1" dbSKU
            [venta10, venta11, venta12]).2.error ∧
        (importVentasBatch none 5 "b1" "POS-1" dbSKU
            [venta10, venta11, venta12]).2.batch_id = some "b1" ∧
        (importVentasBatch none 5 "b1" "POS-1" dbSKU
            [venta10, venta11, venta12]).1.ventas =
          (importVentasBatch none 5 "b1" "POS-1" dbSKU
              ([venta10, venta11, venta12].filter fun v =>
                !(ventaFails dbSKU v))).1.ventas ∧
        (importVentasBatch none 5 "b1" "POS-1" dbSKU
            [venta10, venta11, venta12]).1.lineas =
          (importVentasBatch none 5 "b1" "POS-1" dbSKU
              ([venta10, venta11, venta12].filter fun v =>
                !(ventaFails dbSKU v))).1.lineas ∧
        (importVentasBatch none 5 "b1" "POS-1" dbSKU
            [venta10, venta11, venta12]).1.pagos =
          (importVentasBatch none 5 "b1" "POS-1" dbSKU
              ([venta10, venta11, venta12].filter fun v =>
                !(ventaFails dbSKU v))).1.pagos) :=
  ⟨by decide,
    claim_C3 none 5 "b1" "POS-1" dbSKU [venta10, venta11, venta12]
      (by decide)⟩

/-- C6 counterexample: a non-empty cancellation batch (id 7, empty
store, source "POS-1") leaves the sync cursor untouched — still absent —
whereas the claim requires it advanced to
max(previously stored, 7) = 7.  The cancellations route deliberately
does not write `estado_sincronizacion` (cancelaciones.ts lines
154-156); it only returns `max_id_cancelacion` in the response. -/
theorem claim_C6_counterexample :
    (importCancelacionesBatch none 0 "b1" "POS-1" DB.empty
          [cancel7]).1.estadoSync "POS-1" = none ∧
      (importCancelacionesBatch none 0 "b1" "POS-1" DB.empty
          [cancel7]).1.estadoSync "POS-1" ≠ some 7 :=
  ⟨by decide, by decide⟩

/-- C6 (amended): only the sales import advances the per-source cursor.
After a non-empty sale batch whose maximum id is positive, the cursor is
upserted once to max(previously stored value, maximum id over all items,
including failed ones); when the maximum id is not positive the cursor
table is untouched; the stored value never decreases; other sources are
untouched; and a cancellation import of any batch never touches the
cursor table at all. -/
theorem claim_C6 (e : Option String) (t : Nat) (b s : String) (db : DB)
    (batch : List Venta) (items : List Cancelacion) (hne : batch ≠ []) :
    (0 < batch.foldl (fun m v => max m v.id_venta) 0 →
        (importVentasBatch e t b s db batch).1.estadoSync s =
          some
            (match db.estadoSync s with
             | none => batch.foldl (fun m v => max m v.id_venta) 0
             | some old =>
                 max old (batch.foldl (fun m v => max m v.id_venta) 0))) ∧
      (batch.foldl (fun m v => max m v.id_venta) 0 ≤ 0 →
        (importVentasBatch e t b s db batch).1.estadoSync =
          db.estadoSync) ∧
      (∀ old newv, db.estadoSync s = some old →
        (importVentasBatch e t b s db batch).1.estadoSync s = some newv →
        old ≤ newv) ∧
      (∀ s2, s2 ≠ s →
        (importVentasBatch e t b s db batch).1.estadoSync s2 =
          db.estadoSync s2) ∧
      (importCancelacionesBatch e t b s db items).1.estadoSync =
        db.estadoSync := by
  have hrun := runVentas_estadoSync e t batch db
  refine ⟨?_, ?_, ?_, ?_, ?_⟩
  · intro hM
    rw [importVentasBatch_ne e t b s db batch hne]
    dsimp only
    rw [if_pos hM, advanceCursor_estadoSync]
    dsimp only
    rw [if_pos rfl, hrun]
  · intro hM
    rw [importVentasBatch_ne e t b s db batch hne]
    dsimp only
    rw [if_neg (by omega)]
    exact hrun
  · intro old newv h1
    rw [importVentasBatch_ne e t b s db batch hne]
    dsimp only
    split
    · rw [advanceCursor_estadoSync]
      dsimp only
      rw [if_pos rfl, hrun, h1]
      dsimp only
      intro h2
      injection h2 with h3
      rw [← h3]
      exact le_max_left _ _
    · rw [hrun, h1]
      intro h2
      have h3 : old = newv := by injection h2
      omega
  · intro s2 hs2
    rw [importVentasBatch_ne e t b s db batch hne]
    dsimp only
    split
    · rw [advanceCursor_estadoSync]
      dsimp only
      rw [if_neg hs2]
      exact congrFun hrun s2
    · exact congrFun hrun s2
  · by_cases hi : items = []
    · subst hi
      rfl
    · obtain ⟨-, -, h3⟩ := importCancelacionesBatch_core e t b s db items hi
      exact h3

/-- C6 witness: a sale batch with maximum id 10 over the empty store
sets the cursor of "POS-1" to 10; a cancellation batch leaves the
cursor map untouched. -/
theorem claim_C6_witness :
    ([venta10] : List Venta) ≠ [] ∧
      ((0 < [venta10].foldl (fun m v => max m v.id_venta) 0 →
          (importVentasBatch none 0 "b1" "POS-1" DB.empty
              [venta10]).1.estadoSync "POS-1" =
            some
              (match DB.empty.estadoSync "POS-1" with
               | none => [venta10].foldl (fun m v => max m v.id_venta) 0
               | some old =>
                   max old
                     ([venta10].foldl (fun m v => max m v.id_venta) 0))) ∧
        ([venta10].foldl (fun m v => max m v.id_venta) 0 ≤ 0 →
          (importVentasBatch none 0 "b1" "POS-1" DB.empty
              [venta10]).1.estadoSync = DB.empty.estadoSync) ∧
        (∀ old newv, DB.empty.estadoSync "POS-1" = some old →
          (importVentasBatch none 0 "b1" "POS-1" DB.empty
              [venta10]).1.estadoSync "POS-1" = some newv →
          old ≤ newv) ∧
        (∀ s2, s2 ≠ "POS-1" →
          (importVentasBatch none 0 "b1" "POS-1" DB.empty
              [venta10]).1.estadoSync s2 = DB.empty.estadoSync s2) ∧
        (importCancelacionesBatch none 0 "b1" "POS-1" DB.empty
            [cancel7]).1.estadoSync = DB.empty.estadoSync) :=
  ⟨by decide,
    claim_C6 none 0 "b1" "POS-1" DB.empty [venta10] [cancel7] (by decide)⟩

end Moncar
